import Mathlib

/-!
Shallow embedding of `src/coral_cts.py` (Coral Compatibility Test Suite).

The Python program is a sequential orchestration tool.  We embed its pure
data transformations as Lean functions:

* the `TestSuite` object becomes an explicit state record `TestSuiteState`
  (insertion-ordered Python dicts become association lists);
* file and console output become strings threaded through the state;
* subprocess interaction becomes an explicit input describing the outcome
  of the launch (`ProcResult`), since the child process is outside the
  program;
* Python `float` temperature values are modeled by rationals `ℚ`, and the
  textual rendering `str(x)` of a float is an abstract parameter
  `fstr : ℚ → String` of the summary writer.
-/

namespace CoralCTS

/-- Line 46-48 of the source: the fixed banner prepended to the summary
(53 hash marks, the centered title, 53 hash marks, then a blank line). -/
def CTS_HEADER : String :=
"#####################################################\n        Coral Compatibility Test Suite\n#####################################################\n\n"

/-- Line 50 of the source: 53 dashes and a newline. -/
def SECTION_HEADER : String := "-----------------------------------------------------\n"

/-- Insertion-ordered dictionary update, as for a Python `dict`:
an existing key keeps its position and gets the new value, a new key is
appended at the end. -/
def dictInsert {α : Type} (k : String) (v : α) : List (String × α) → List (String × α)
  | [] => [(k, v)]
  | (k', v') :: rest => if k' = k then (k, v) :: rest else (k', v') :: dictInsert k v rest

/-- Dictionary lookup: value of the first entry with the given key. -/
def dictGet {α : Type} (k : String) : List (String × α) → Option α
  | [] => none
  | (k', v') :: rest => if k' = k then some v' else dictGet k rest

/-- Concatenation of a list of strings. -/
def strConcat : List String → String
  | [] => ""
  | s :: rest => s ++ strConcat rest

/-- Boolean test that a list is a prefix of another list. -/
def isPrefixList : List Char → List Char → Bool
  | [], _ => true
  | _ :: _, [] => false
  | a :: as, b :: bs => a == b && isPrefixList as bs

/-- Boolean test that `needle` occurs as a contiguous run inside `hay`. -/
def containsList (needle : List Char) : List Char → Bool
  | [] => isPrefixList needle []
  | c :: rest => isPrefixList needle (c :: rest) || containsList needle rest

/-- Model of the Python substring test `needle in hay`. -/
def strContains (hay needle : String) : Bool :=
  containsList needle.data hay.data

/-- The mutable state of a `TestSuite` object (lines 66-73), together with
the content of its open output file and of the console.  `results` and
`thermals` are the insertion-ordered dicts of the source; `fileContent` is
the text written to the open file so far; `stdout` mirrors the console. -/
structure TestSuiteState where
  results : List (String × Bool)
  filePath : String
  fileContent : String
  stdout : String
  tpus : Nat
  pci : Bool
  usb : Bool
  thermals : List (String × ℚ)
deriving Repr, DecidableEq

/-- `TestSuite._file_print` (lines 81-89): append the message to both the
file and the console. -/
def filePrint (s : TestSuiteState) (message : String) : TestSuiteState :=
  { s with fileContent := s.fileContent ++ message, stdout := s.stdout ++ message }

/-- The state built by `TestSuite.__init__` (lines 66-73): empty results
and thermals, zero TPUs, flags cleared, file opened for writing (hence
empty). -/
def initState (file_path : String) : TestSuiteState :=
  { results := []
    filePath := file_path
    fileContent := ""
    stdout := ""
    tpus := 0
    pci := false
    usb := false
    thermals := [] }

/-- A file system as a mapping from paths to file contents. -/
def FileSystem : Type := List (String × String)

/-- Python `open(path, "w")`: create or truncate the file at `path`. -/
def openWrite (fs : FileSystem) (path : String) : FileSystem :=
  dictInsert path "" fs

/-- `TestSuite.__init__` acting on the file system: line 69 opens
`file_path` in write mode, truncating any existing file there. -/
def testSuite_init (fs : FileSystem) (file_path : String) :
    TestSuiteState × FileSystem :=
  (initState file_path, openWrite fs file_path)

/-- Outcome of a `subprocess.Popen` launch: either the launch raised an
exception with the given message, or the child ran, produced the given
combined stdout/stderr lines, and exited with the given return code. -/
inductive ProcResult where
  | launchFailure (msg : String)
  | launched (lines : List String) (returncode : Int)
deriving Repr, DecidableEq

/-- One line of output of the `cat /sys/class/apex/apex_*/temp` command:
either text that Python `float()` parses to the given value (in
millidegrees), or text on which `float()` raises. -/
inductive TempLine where
  | val (q : ℚ)
  | bad
deriving Repr, DecidableEq

/-- Outcome of the temperature-reading subprocess. -/
inductive TempProc where
  | launchFailure
  | lines (ls : List TempLine)
deriving Repr, DecidableEq

/-- The `temperatures` list collected by the loop of
`TestSuite._read_temperatures` (lines 157-158): each parsed value is
divided by 1000; the first line on which `float()` raises aborts the loop
(the exception is swallowed on line 161), keeping the values already
collected. -/
def collectTemps : List TempLine → List ℚ
  | [] => []
  | TempLine.val q :: rest => q / 1000 :: collectTemps rest
  | TempLine.bad :: _ => []

/-- Python `max` over a list, with an unreachable default for `[]` (the
source only calls it under a non-emptiness guard). -/
def pyMax : List ℚ → ℚ
  | [] => 0
  | v :: vs => vs.foldl max v

/-- `TestSuite._read_temperatures` (lines 151-163): collect readings from
the `cat` subprocess, and iff any were collected, record their maximum in
`thermals` under `current_test`.  All exceptions are swallowed. -/
def read_temperatures (tp : TempProc) (current_test : String)
    (s : TestSuiteState) : TestSuiteState :=
  let temperatures :=
    match tp with
    | TempProc.launchFailure => []
    | TempProc.lines ls => collectTemps ls
  if temperatures.isEmpty then s
  else { s with thermals := dictInsert current_test (pyMax temperatures) s.thermals }

/-- `TestSuite.run_test` (lines 165-197).  `test_name` is `test[0]` and
`args` the remaining arguments; `cwd` is `os.getcwd()`; `sysPlatform` is
`sys.platform`; `pr` is the outcome of launching the test executable and
`tp` the outcome of the later temperature read.  On launch failure the
exception text is printed, a `False` result is recorded and the method
returns; otherwise each output line is echoed, temperatures are read when
a PCI TPU was detected on linux, and the result is `True` iff the return
code is zero. -/
def run_test (cwd : String) (pr : ProcResult) (tp : TempProc)
    (sysPlatform : String) (test_name : String) (args : List String)
    (s : TestSuiteState) : TestSuiteState :=
  let current_test := test_name
  let s := filePrint s ("\n" ++ SECTION_HEADER)
  let s := filePrint s (current_test ++ "\n")
  let s := filePrint s SECTION_HEADER
  let _resolved : List String := (cwd ++ "/" ++ current_test) :: args
  match pr with
  | ProcResult.launchFailure msg =>
      let s := filePrint s (msg ++ "\n")
      { s with results := dictInsert current_test false s.results }
  | ProcResult.launched lines returncode =>
      let s := lines.foldl filePrint s
      let s :=
        if s.pci && (sysPlatform == "linux") then read_temperatures tp current_test s
        else s
      if returncode ≠ 0 then { s with results := dictInsert current_test false s.results }
      else { s with results := dictInsert current_test true s.results }

/-- The command actually launched by `run_test` (line 179 replaces
`test[0]` by `os.getcwd() + "/" + current_test` before `Popen`). -/
def run_test_command (cwd : String) (test_name : String) (args : List String) :
    List String :=
  (cwd ++ "/" ++ test_name) :: args

/-- Body of the detection loop (lines 216-222): a line containing `PCI`
sets the `pci` flag, one containing `USB` sets the `usb` flag, the TPU
count goes up by one, and the line is echoed. -/
def detectLine (st : TestSuiteState) (line : String) : TestSuiteState :=
  let st := if !st.pci && strContains line "PCI" then { st with pci := true } else st
  let st := if !st.usb && strContains line "USB" then { st with usb := true } else st
  let st := { st with tpus := st.tpus + 1 }
  filePrint st line

/-- `TestSuite.detect_tpus` (lines 199-233): print a section header, run
`lstpu`, and process each output line with `detectLine`.  Record the
result `True` under the key `lstpu` iff the count is nonzero, printing an
explicit message when it is zero. -/
def detect_tpus (pr : ProcResult) (s : TestSuiteState) : TestSuiteState :=
  let s := filePrint s ("\n" ++ SECTION_HEADER)
  let s := filePrint s "Detected TPUs (lstpu)\n"
  let s := filePrint s SECTION_HEADER
  let s :=
    match pr with
    | ProcResult.launchFailure msg => filePrint s (msg ++ "\n")
    | ProcResult.launched lines _ => lines.foldl detectLine s
  if s.tpus ≠ 0 then { s with results := dictInsert "lstpu" true s.results }
  else
    let s := { s with results := dictInsert "lstpu" false s.results }
    filePrint s "No TPUs detected\n"

/-- The loop of `TestSuite._write_summary` (lines 135-139): starting from
`summary = CTS_HEADER` and `overall_passed = True`, append one line per
recorded test and conjoin its result into the overall verdict. -/
def summaryLoop (results : List (String × Bool)) : String × Bool :=
  results.foldl
    (fun acc r =>
      (acc.1 ++ (r.1 ++ ": " ++ (if r.2 = true then "Passed" else "Failed") ++ "\n"),
       acc.2 && r.2))
    (CTS_HEADER, true)

/-- The `summary` string composed by `TestSuite._write_summary`
(lines 132-144): banner and per-test lines from the loop, then the
max-temperature line when `thermals` is non-empty, then the overall
verdict line. -/
def summaryOf (fstr : ℚ → String) (s : TestSuiteState) : String :=
  let lp := summaryLoop s.results
  (if s.thermals.isEmpty then lp.1
   else lp.1 ++ "\nMax Temperature (C): " ++ fstr (pyMax (s.thermals.map Prod.snd)))
  ++ "\nOverall Compatibility: " ++ (if lp.2 = true then "Passed" else "Failed") ++ "\n"

/-- `TestSuite._write_thermal_summary` (lines 110-116): print a section
with one line per thermal entry. -/
def write_thermal_summary (fstr : ℚ → String) (s : TestSuiteState) : TestSuiteState :=
  let s0 := filePrint s ("\n" ++ SECTION_HEADER)
  let s1 := filePrint s0 ("Temperatures During Tests" ++ "\n")
  let s2 := filePrint s1 SECTION_HEADER
  let s3 := s.thermals.foldl (fun st t => filePrint st (t.1 ++ ": " ++ fstr t.2 ++ "\n")) s2
  filePrint s3 "\n"

/-- `TestSuite._write_summary` (lines 118-149): first append the thermal
section to the sink when thermals were recorded, then rewrite the file as
the composed summary, two newlines, and the previous file content; the
summary is also echoed to the console (line 145 prints a leading newline
and `print` appends one). -/
def write_summary (fstr : ℚ → String) (s : TestSuiteState) : TestSuiteState :=
  let s1 := if s.thermals.isEmpty then s else write_thermal_summary fstr s
  let summary := summaryOf fstr s1
  { s1 with
    fileContent := summary ++ "\n\n" ++ s1.fileContent
    stdout := s1.stdout ++ "\n" ++ summary ++ "\n" }

/-- `TestSuite.__exit__` (lines 78-79): leaving the `with` block writes
the summary. -/
def testSuite_exit (fstr : ℚ → String) (s : TestSuiteState) : TestSuiteState :=
  write_summary fstr s

/-- The two CLI flags of `main` (lines 264-267) with their defaults. -/
structure Args where
  test_name : String
  output : String
deriving Repr, DecidableEq

/-- Default values of the flags (lines 265-266). -/
def defaultArgs : Args := { test_name := "tflite_utils_test", output := "cts.txt" }

/-- Model of `os.path.join` for two components on a POSIX platform: an
absolute second component wins; otherwise the components are joined with
a separator unless one is already present. -/
def os_path_join (a b : String) : String :=
  if isPrefixList ['/'] b.data then b
  else if a = "" then b
  else if a.data.getLast? = some '/' then a ++ b
  else a ++ "/" ++ b

/-- Line 270 of `main`: the output file path is
`os.path.join(os.getcwd(), f"{args.test_name}.txt")`; the `--output`
value is never consulted. -/
def main_output_file (cwd : String) (args : Args) : String :=
  os_path_join cwd (args.test_name ++ ".txt")

/-- Line 290 of `main`: the TPU count is the hardcoded placeholder `1`
(the call to `detect_tpus` on lines 287-289 is commented out). -/
def mainTpus : Nat := 1

/-- The dispatch chain of `main` (lines 295-323), as the list of
`(test_name, args)` pairs passed to `run_test`, in source order.  Each
branch is an independent `if` comparing `args.test_name` to a literal;
the multi-TPU branch additionally requires `tpus > 1`. -/
def selectTests (test_name : String) (tpus : Nat) : List (String × List String) :=
  (if test_name = "tflite_utils_test" then
    [("tflite_utils_test", [])] else [])
  ++ (if test_name = "inference_stress_test" then
    [("inference_stress_test",
      ["--stress_test_runs=10000", "--stress_with_sleep_test_runs=200"])] else [])
  ++ (if test_name = "model_loading_stress_test" then
    [("model_loading_stress_test", ["--stress_test_runs=50"])] else [])
  ++ (if test_name = "inference_repeatability_test" then
    [("inference_repeatability_test", ["--stress_test_runs=1000", "--gtest_repeat=20"])] else [])
  ++ (if test_name = "classification_models_test" then
    [("classification_models_test",
      ["--gtest_repeat=10", "--gtest_filter=-*tfhub_tf2_resnet_50_imagenet_ptq*"])] else [])
  ++ (if test_name = "detection_models_test" then
    [("detection_models_test", ["--gtest_repeat=100"])] else [])
  ++ (if test_name = "segmentation_models_test" then
    [("segmentation_models_test", ["--gtest_repeat=100"])] else [])
  ++ (if 1 < tpus ∧ test_name = "multiple_tpus_inference_stress_test" then
    [("multiple_tpus_inference_stress_test", ["--num_inferences=5000"])] else [])
  ++ (if test_name = "models_benchmark" then
    [("models_benchmark", ["--benchmark_color=false"])] else [])

/-- The nine test names recognized by the dispatch chain. -/
def recognizedNames : List String :=
  ["tflite_utils_test", "inference_stress_test", "model_loading_stress_test",
   "inference_repeatability_test", "classification_models_test",
   "detection_models_test", "segmentation_models_test",
   "multiple_tpus_inference_stress_test", "models_benchmark"]

/-- The full commands launched for a given selector: each dispatched pair
resolved by `run_test` against the current working directory. -/
def invokedCommands (cwd : String) (test_name : String) (tpus : Nat) :
    List (List String) :=
  (selectTests test_name tpus).map (fun p => run_test_command cwd p.1 p.2)

/-! ### Specification-side definitions

These definitions follow the wording of the specification; the theorems
below compare them with the source-derived definitions above. -/

/-- Modelled from the spec: one summary line per recorded test,
`"<name>: Passed"` or `"<name>: Failed"`. -/
def testLine (r : String × Bool) : String :=
  r.1 ++ ": " ++ (if r.2 = true then "Passed" else "Failed") ++ "\n"

/-- Modelled from the spec: the per-test lines in recording order. -/
def testLinesStr (results : List (String × Bool)) : String :=
  strConcat (results.map testLine)

/-- Modelled from the spec: the optional max-temperature line, present
exactly when the Thermal Record is non-empty. -/
def maxTempPart (fstr : ℚ → String) (thermals : List (String × ℚ)) : String :=
  if thermals.isEmpty then ""
  else "\nMax Temperature (C): " ++ fstr (pyMax (thermals.map Prod.snd))

/-- Modelled from the spec: the overall verdict line, `Passed` iff every
recorded result is true. -/
def overallLine (results : List (String × Bool)) : String :=
  "\nOverall Compatibility: "
  ++ (if results.all (fun r => r.2) then "Passed" else "Failed") ++ "\n"

/-- Modelled from the spec: the complete summary block. -/
def summaryText (fstr : ℚ → String) (results : List (String × Bool))
    (thermals : List (String × ℚ)) : String :=
  CTS_HEADER ++ testLinesStr results ++ maxTempPart fstr thermals ++ overallLine results

/-- The text appended to the sink by the thermal section, in closed form. -/
def thermalBlock (fstr : ℚ → String) (thermals : List (String × ℚ)) : String :=
  "\n" ++ SECTION_HEADER ++ "Temperatures During Tests" ++ "\n" ++ SECTION_HEADER
  ++ strConcat (thermals.map (fun t => t.1 ++ ": " ++ fstr t.2 ++ "\n")) ++ "\n"

/-- The readings that Python `float()` parses before the first failing
line, in millidegrees (spec side of the claim about partial reads). -/
def valsUntilBad : List TempLine → List ℚ
  | [] => []
  | TempLine.val q :: rest => q :: valsUntilBad rest
  | TempLine.bad :: _ => []

/-! ### Helper lemmas -/

theorem strAppend_assoc (a b c : String) : a ++ b ++ c = a ++ (b ++ c) := by
  apply String.ext
  simp [String.data_append, List.append_assoc]

theorem mem_data_append {c : Char} {a b : String} :
    c ∈ (a ++ b).data ↔ c ∈ a.data ∨ c ∈ b.data := by
  simp [String.data_append]

theorem strConcat_append (l₁ l₂ : List String) :
    strConcat (l₁ ++ l₂) = strConcat l₁ ++ strConcat l₂ := by
  induction l₁ with
  | nil => simp [strConcat]
  | cons s rest ih => simp [strConcat, ih, strAppend_assoc]

theorem mem_strConcat {c : Char} {l : List String} (h : c ∈ (strConcat l).data) :
    ∃ s ∈ l, c ∈ s.data := by
  induction l with
  | nil => simp [strConcat] at h
  | cons s rest ih =>
    rw [strConcat, mem_data_append] at h
    rcases h with h | h
    · exact ⟨s, List.mem_cons_self s rest, h⟩
    · rcases ih h with ⟨t, ht, hc⟩
      exact ⟨t, List.mem_cons_of_mem s ht, hc⟩

theorem strConcat_mem_decomp {α : Type} {x : α} {l : List α} (f : α → String)
    (h : x ∈ l) : ∃ A B, strConcat (l.map f) = A ++ (f x ++ B) := by
  induction l with
  | nil => cases h
  | cons y rest ih =>
    rcases List.mem_cons.mp h with rfl | h
    · exact ⟨"", strConcat (rest.map f), by simp [strConcat, String.empty_append]⟩
    · rcases ih h with ⟨A, B, hAB⟩
      refine ⟨f y ++ A, B, ?_⟩
      simp [strConcat, hAB, strAppend_assoc]

theorem dictGet_insert_self {α : Type} (k : String) (v : α) (d : List (String × α)) :
    dictGet k (dictInsert k v d) = some v := by
  induction d with
  | nil => simp [dictInsert, dictGet]
  | cons e rest ih =>
    by_cases h : e.1 = k
    · simp [dictInsert, dictGet, h]
    · simp [dictInsert, dictGet, h, ih]

theorem dictGet_insert_ne {α : Type} (k k' : String) (v : α) (d : List (String × α))
    (h : k' ≠ k) : dictGet k' (dictInsert k v d) = dictGet k' d := by
  induction d with
  | nil => simp [dictInsert, dictGet, Ne.symm h]
  | cons e rest ih =>
    obtain ⟨ek, ev⟩ := e
    by_cases he : ek = k
    · subst he
      simp [dictInsert, dictGet, Ne.symm h]
    · simp [dictInsert, dictGet, he, ih]

theorem mem_dictInsert_self {α : Type} (k : String) (v : α) (d : List (String × α)) :
    (k, v) ∈ dictInsert k v d := by
  induction d with
  | nil => simp [dictInsert]
  | cons e rest ih =>
    by_cases h : e.1 = k
    · simp [dictInsert, h]
    · simp only [dictInsert, if_neg h]
      exact List.mem_cons_of_mem e ih

theorem foldl_max_init_le (l : List ℚ) (a : ℚ) : a ≤ l.foldl max a := by
  induction l generalizing a with
  | nil => exact le_refl a
  | cons x rest ih =>
    calc a ≤ max a x := le_max_left a x
    _ ≤ rest.foldl max (max a x) := ih (max a x)

theorem foldl_max_mem_le (l : List ℚ) (a v : ℚ) : v ∈ l → v ≤ l.foldl max a := by
  induction l generalizing a with
  | nil => intro h; cases h
  | cons x rest ih =>
    intro h
    rcases List.mem_cons.mp h with rfl | h
    · calc v ≤ max a v := le_max_right a v
      _ ≤ rest.foldl max (max a v) := foldl_max_init_le rest (max a v)
    · exact ih (max a x) h

theorem foldl_max_mem (l : List ℚ) (a : ℚ) : l.foldl max a = a ∨ l.foldl max a ∈ l := by
  induction l generalizing a with
  | nil => exact Or.inl rfl
  | cons x rest ih =>
    rcases ih (max a x) with h | h
    · rcases max_choice a x with hm | hm
      · exact Or.inl (by rw [List.foldl_cons, h, hm])
      · exact Or.inr (by rw [List.foldl_cons, h, hm]; exact List.mem_cons_self x rest)
    · exact Or.inr (List.mem_cons_of_mem x h)

theorem pyMax_mem {l : List ℚ} (h : l ≠ []) : pyMax l ∈ l := by
  cases l with
  | nil => exact absurd rfl h
  | cons v vs =>
    rcases foldl_max_mem vs v with hm | hm
    · rw [pyMax, hm]; exact List.mem_cons_self v vs
    · exact List.mem_cons_of_mem v (by rw [pyMax]; exact hm)

theorem pyMax_le {l : List ℚ} {v : ℚ} (h : v ∈ l) : v ≤ pyMax l := by
  cases l with
  | nil => cases h
  | cons w ws =>
    rcases List.mem_cons.mp h with rfl | h
    · exact foldl_max_init_le ws v
    · exact foldl_max_mem_le ws w v h

theorem foldl_filePrint {α : Type} (f : α → String) (ls : List α) :
    ∀ s : TestSuiteState,
    ls.foldl (fun st x => filePrint st (f x)) s
      = { s with fileContent := s.fileContent ++ strConcat (ls.map f),
                 stdout := s.stdout ++ strConcat (ls.map f) } := by
  induction ls with
  | nil => intro s; simp [strConcat, filePrint, String.append_empty]
  | cons x rest ih =>
    intro s
    rw [List.foldl_cons, ih]
    simp [filePrint, strConcat, strAppend_assoc]

theorem foldl_filePrint_id (ls : List String) :
    ∀ s : TestSuiteState,
    ls.foldl filePrint s
      = { s with fileContent := s.fileContent ++ strConcat ls,
                 stdout := s.stdout ++ strConcat ls } := by
  induction ls with
  | nil => intro s; simp [strConcat, filePrint, String.append_empty]
  | cons x rest ih =>
    intro s
    rw [List.foldl_cons, ih]
    simp [filePrint, strConcat, strAppend_assoc]

theorem summaryFold (rs : List (String × Bool)) :
    ∀ (a : String) (b : Bool),
    rs.foldl
      (fun acc r =>
        (acc.1 ++ (r.1 ++ ": " ++ (if r.2 = true then "Passed" else "Failed") ++ "\n"),
         acc.2 && r.2))
      (a, b)
      = (a ++ testLinesStr rs, b && rs.all (fun r => r.2)) := by
  induction rs with
  | nil => intro a b; simp [testLinesStr, strConcat, String.append_empty]
  | cons r rest ih =>
    intro a b
    rw [List.foldl_cons, ih]
    simp [testLinesStr, testLine, strConcat, strAppend_assoc, Bool.and_assoc]

theorem summaryLoop_eq (rs : List (String × Bool)) :
    summaryLoop rs = (CTS_HEADER ++ testLinesStr rs, rs.all (fun r => r.2)) := by
  rw [summaryLoop, summaryFold]
  simp

theorem write_thermal_summary_eq (fstr : ℚ → String) (s : TestSuiteState) :
    write_thermal_summary fstr s
      = { s with fileContent := s.fileContent ++ thermalBlock fstr s.thermals,
                 stdout := s.stdout ++ thermalBlock fstr s.thermals } := by
  rw [write_thermal_summary]
  rw [show (fun (st : TestSuiteState) (t : String × ℚ) =>
        filePrint st (t.1 ++ ": " ++ fstr t.2 ++ "\n"))
      = (fun st t => filePrint st ((fun (u : String × ℚ) => u.1 ++ ": " ++ fstr u.2 ++ "\n") t))
    from rfl]
  rw [foldl_filePrint]
  simp [filePrint, thermalBlock, strAppend_assoc]

theorem summaryOf_eq (fstr : ℚ → String) (s : TestSuiteState) :
    summaryOf fstr s = summaryText fstr s.results s.thermals := by
  rw [summaryOf, summaryText, summaryLoop_eq]
  by_cases h : s.thermals.isEmpty
  · simp [h, maxTempPart, overallLine, strAppend_assoc, String.append_empty]
  · simp [h, maxTempPart, overallLine, strAppend_assoc]

theorem write_summary_fileContent (fstr : ℚ → String) (s : TestSuiteState) :
    (write_summary fstr s).fileContent
      = summaryText fstr s.results s.thermals ++ "\n\n"
        ++ (s.fileContent ++ (if s.thermals.isEmpty then "" else thermalBlock fstr s.thermals)) := by
  rw [write_summary]
  by_cases h : s.thermals.isEmpty
  · simp only [h, if_pos, if_true]
    rw [summaryOf_eq]
    simp [h, String.append_empty, strAppend_assoc]
  · simp only [h, if_false, Bool.false_eq_true]
    rw [write_thermal_summary_eq]
    rw [summaryOf_eq]

/-! ### Claims -/

/-- C1: for any sequence of recorded results, the summary composed at
aggregator finalization ends in an `Overall Compatibility` line whose
verdict is `Passed` iff every recorded result is true, is `Failed` iff
some recorded result is false, and is `Passed` when no results were
recorded. -/
theorem overall_compatibility_iff (fstr : ℚ → String) (s : TestSuiteState) :
    ∃ pre verdict,
      summaryOf fstr s = pre ++ ("\nOverall Compatibility: " ++ (verdict ++ "\n"))
      ∧ (verdict = "Passed" ↔ ∀ r ∈ s.results, r.2 = true)
      ∧ (verdict = "Failed" ↔ ∃ r ∈ s.results, r.2 = false)
      ∧ (s.results = [] → verdict = "Passed") := by
  refine ⟨CTS_HEADER ++ testLinesStr s.results ++ maxTempPart fstr s.thermals,
          if s.results.all (fun r => r.2) then "Passed" else "Failed", ?_, ?_, ?_, ?_⟩
  · rw [summaryOf_eq, summaryText, overallLine]
    simp only [strAppend_assoc]
  · by_cases hall : s.results.all (fun r => r.2) = true
    · rw [if_pos hall]
      exact iff_of_true rfl (fun r hr => List.all_eq_true.mp hall r hr)
    · rw [if_neg hall]
      refine iff_of_false (by decide) (fun hf => hall (List.all_eq_true.mpr hf))
  · by_cases hall : s.results.all (fun r => r.2) = true
    · rw [if_pos hall]
      refine iff_of_false (by decide) ?_
      rintro ⟨r, hr, hf⟩
      have := List.all_eq_true.mp hall r hr
      rw [hf] at this
      cases this
    · rw [if_neg hall]
      refine iff_of_true rfl ?_
      have h2 : ¬ ∀ r ∈ s.results, r.2 = true :=
        fun hf => hall (List.all_eq_true.mpr hf)
      push_neg at h2
      obtain ⟨r, hr, hne⟩ := h2
      exact ⟨r, hr, by simpa using hne⟩
  · intro h
    simp [h]

/-- C2: after finalization, the output file content is exactly the fixed
banner, the per-test lines in recording order, the optional
max-temperature part, the overall-compatibility line, two newlines, and
the full content captured in the file before the rewrite (including the
thermal section that finalization itself appends to the sink when
thermals were recorded). -/
theorem final_file_content (fstr : ℚ → String) (s : TestSuiteState) :
    (write_summary fstr s).fileContent
      = CTS_HEADER ++ testLinesStr s.results ++ maxTempPart fstr s.thermals
        ++ overallLine s.results ++ "\n\n"
        ++ (s.fileContent ++ (if s.thermals.isEmpty then "" else thermalBlock fstr s.thermals)) := by
  rw [write_summary_fileContent, summaryText]

theorem mem_testLine {c : Char} {r : String × Bool} (h : c ∈ (testLine r).data) :
    c ∈ r.1.data ∨ c ∈ (": " : String).data ∨ c ∈ ("Passed" : String).data
      ∨ c ∈ ("Failed" : String).data ∨ c ∈ ("\n" : String).data := by
  rw [testLine] at h
  rcases mem_data_append.mp h with h | h
  · rcases mem_data_append.mp h with h | h
    · rcases mem_data_append.mp h with h | h
      · exact Or.inl h
      · exact Or.inr (Or.inl h)
    · by_cases hr : r.2 = true
      · rw [if_pos hr] at h
        exact Or.inr (Or.inr (Or.inl h))
      · rw [if_neg hr] at h
        exact Or.inr (Or.inr (Or.inr (Or.inl h)))
  · exact Or.inr (Or.inr (Or.inr (Or.inr h)))

theorem mem_overallLine {c : Char} {rs : List (String × Bool)}
    (h : c ∈ (overallLine rs).data) :
    c ∈ ("\nOverall Compatibility: " : String).data ∨ c ∈ ("Passed" : String).data
      ∨ c ∈ ("Failed" : String).data ∨ c ∈ ("\n" : String).data := by
  rw [overallLine] at h
  rcases mem_data_append.mp h with h | h
  · rcases mem_data_append.mp h with h | h
    · exact Or.inl h
    · by_cases hr : rs.all (fun r => r.2) = true
      · rw [if_pos hr] at h
        exact Or.inr (Or.inl h)
      · rw [if_neg hr] at h
        exact Or.inr (Or.inr (Or.inl h))
  · exact Or.inr (Or.inr (Or.inr h))

/-- C4: if the Thermal Record is non-empty, the summary has a
`Max Temperature (C)` line whose value is the maximum of the recorded
per-test peaks; if it is empty, no such text appears anywhere in the
summary (given that no recorded test name mentions it). -/
theorem max_temperature_line (fstr : ℚ → String) (results : List (String × Bool))
    (thermals : List (String × ℚ)) (hM : ∀ r ∈ results, 'M' ∉ r.1.data) :
    (thermals ≠ [] →
      ∃ A B, summaryText fstr results thermals
          = A ++ ("\nMax Temperature (C): " ++ fstr (pyMax (thermals.map Prod.snd))) ++ B
        ∧ pyMax (thermals.map Prod.snd) ∈ thermals.map Prod.snd
        ∧ ∀ v ∈ thermals.map Prod.snd, v ≤ pyMax (thermals.map Prod.snd))
    ∧ (thermals = [] →
      ¬ ∃ A B, summaryText fstr results thermals = A ++ "Max Temperature (C)" ++ B) := by
  constructor
  · intro hne
    have hvals : thermals.map Prod.snd ≠ [] := by
      cases thermals with
      | nil => exact absurd rfl hne
      | cons t ts => simp
    refine ⟨CTS_HEADER ++ testLinesStr results, overallLine results, ?_, pyMax_mem hvals,
            fun v hv => pyMax_le hv⟩
    rw [summaryText, maxTempPart]
    have he : thermals.isEmpty = false := by
      cases thermals with
      | nil => exact absurd rfl hne
      | cons t ts => rfl
    rw [he]
    simp only [Bool.false_eq_true, if_false, strAppend_assoc]
  · intro hempty
    rintro ⟨A, B, hAB⟩
    have hmem : ('M' : Char) ∈ (summaryText fstr results thermals).data := by
      rw [hAB]
      exact mem_data_append.mpr (Or.inl (mem_data_append.mpr (Or.inr (by decide))))
    rw [summaryText, hempty, maxTempPart] at hmem
    simp only [List.isEmpty_nil, if_true, String.append_empty] at hmem
    rcases mem_data_append.mp hmem with h | h
    · rcases mem_data_append.mp h with h | h
      · exact absurd h (by decide)
      · rcases mem_strConcat h with ⟨t, ht, hc⟩
        rcases List.mem_map.mp ht with ⟨r, hr, rfl⟩
        rcases mem_testLine hc with h | h | h | h | h
        · exact hM r hr h
        · exact absurd h (by decide)
        · exact absurd h (by decide)
        · exact absurd h (by decide)
        · exact absurd h (by decide)
    · rcases mem_overallLine h with h | h | h | h
      · exact absurd h (by decide)
      · exact absurd h (by decide)
      · exact absurd h (by decide)
      · exact absurd h (by decide)

/-- Witness for C4 at concrete inputs. -/
theorem max_temperature_line_witness :
    (([("a", (41.5 : ℚ))] : List (String × ℚ)) ≠ [] →
      ∃ A B, summaryText (fun _ => "41.5") [("tflite_utils_test", true)] [("a", (41.5 : ℚ))]
          = A ++ ("\nMax Temperature (C): "
              ++ (fun (_ : ℚ) => "41.5") (pyMax ([("a", (41.5 : ℚ))].map Prod.snd))) ++ B
        ∧ pyMax ([("a", (41.5 : ℚ))].map Prod.snd) ∈ [("a", (41.5 : ℚ))].map Prod.snd
        ∧ ∀ v ∈ [("a", (41.5 : ℚ))].map Prod.snd,
            v ≤ pyMax ([("a", (41.5 : ℚ))].map Prod.snd))
    ∧ (([("a", (41.5 : ℚ))] : List (String × ℚ)) = [] →
      ¬ ∃ A B, summaryText (fun _ => "41.5") [("tflite_utils_test", true)] [("a", (41.5 : ℚ))]
          = A ++ "Max Temperature (C)" ++ B) :=
  max_temperature_line (fun _ => "41.5") [("tflite_utils_test", true)] [("a", (41.5 : ℚ))]
    (by decide)

theorem read_temperatures_results (tp : TempProc) (t : String) (s : TestSuiteState) :
    (read_temperatures tp t s).results = s.results := by
  simp only [read_temperatures]
  split <;> rfl

theorem ite_read_temperatures_results (c : Prop) [Decidable c] (tp : TempProc)
    (t : String) (st : TestSuiteState) :
    (if c then read_temperatures tp t st else st).results = st.results := by
  split
  · rw [read_temperatures_results]
  · rfl

theorem summary_contains_line (fstr : ℚ → String) (s : TestSuiteState)
    {r : String × Bool} (hr : r ∈ s.results) :
    ∃ A B, (write_summary fstr s).fileContent = A ++ (testLine r ++ B) := by
  obtain ⟨A, B, hT⟩ := strConcat_mem_decomp testLine hr
  refine ⟨CTS_HEADER ++ A,
          B ++ (maxTempPart fstr s.thermals ++ (overallLine s.results
            ++ ("\n\n" ++ (s.fileContent
              ++ (if s.thermals.isEmpty then "" else thermalBlock fstr s.thermals))))), ?_⟩
  rw [write_summary_fileContent, summaryText, testLinesStr, hT]
  simp only [strAppend_assoc]

theorem run_test_launchFailure_eq (cwd msg : String) (tp : TempProc)
    (sysPlatform name : String) (args : List String) (s : TestSuiteState) :
    run_test cwd (ProcResult.launchFailure msg) tp sysPlatform name args s
      = { s with
          results := dictInsert name false s.results
          fileContent := s.fileContent
            ++ ("\n" ++ (SECTION_HEADER ++ (name ++ ("\n" ++ (SECTION_HEADER ++ (msg ++ "\n"))))))
          stdout := s.stdout
            ++ ("\n" ++ (SECTION_HEADER ++ (name ++ ("\n" ++ (SECTION_HEADER ++ (msg ++ "\n")))))) } := by
  simp only [run_test]
  simp [filePrint, strAppend_assoc]

/-- C3: when the test subprocess fails to launch, `run_test` records a
false result under the test name, appends the exception text to the sink
after the section header, leaves the thermals untouched, returns normally,
and the later finalization still writes a summary containing the
`<name>: Failed` line. -/
theorem run_test_launch_failure (cwd msg : String) (tp : TempProc)
    (sysPlatform name : String) (args : List String) (fstr : ℚ → String)
    (s : TestSuiteState) :
    ((run_test cwd (ProcResult.launchFailure msg) tp sysPlatform name args s).results
        = dictInsert name false s.results)
    ∧ ((run_test cwd (ProcResult.launchFailure msg) tp sysPlatform name args s).fileContent
        = s.fileContent
          ++ ("\n" ++ (SECTION_HEADER ++ (name ++ ("\n" ++ (SECTION_HEADER ++ (msg ++ "\n")))))))
    ∧ ((run_test cwd (ProcResult.launchFailure msg) tp sysPlatform name args s).thermals
        = s.thermals)
    ∧ (∃ A B,
        (write_summary fstr
            (run_test cwd (ProcResult.launchFailure msg) tp sysPlatform name args s)).fileContent
          = A ++ (testLine (name, false) ++ B)) := by
  rw [run_test_launchFailure_eq]
  refine ⟨rfl, rfl, rfl, ?_⟩
  exact summary_contains_line fstr _ (mem_dictInsert_self name false s.results)

theorem run_test_launched_results (cwd : String) (tp : TempProc)
    (sysPlatform name : String) (args : List String) (lines : List String)
    (rc : Int) (s : TestSuiteState) :
    (run_test cwd (ProcResult.launched lines rc) tp sysPlatform name args s).results
      = dictInsert name (decide (rc = 0)) s.results := by
  simp only [run_test]
  rw [foldl_filePrint_id]
  by_cases hrc : rc = 0
  · rw [if_neg (fun h => h hrc), decide_eq_true hrc]
    simp [ite_read_temperatures_results, filePrint]
  · rw [if_pos hrc, decide_eq_false hrc]
    simp [ite_read_temperatures_results, filePrint]

/-- C9: when the subprocess launches, `run_test` records exactly one
result keyed by the original test name: `true` iff the exit code is zero;
every other key keeps its previous value. -/
theorem run_test_exit_code (cwd : String) (tp : TempProc) (sysPlatform name : String)
    (args : List String) (lines : List String) (rc : Int) (s : TestSuiteState) :
    ∃ b : Bool,
      (run_test cwd (ProcResult.launched lines rc) tp sysPlatform name args s).results
          = dictInsert name b s.results
      ∧ (b = true ↔ rc = 0)
      ∧ dictGet name
          (run_test cwd (ProcResult.launched lines rc) tp sysPlatform name args s).results
          = some b
      ∧ ∀ k, k ≠ name →
          dictGet k
              (run_test cwd (ProcResult.launched lines rc) tp sysPlatform name args s).results
            = dictGet k s.results := by
  refine ⟨decide (rc = 0), run_test_launched_results cwd tp sysPlatform name args lines rc s,
          by simp, ?_, ?_⟩
  · rw [run_test_launched_results, dictGet_insert_self]
  · intro k hk
    rw [run_test_launched_results, dictGet_insert_ne name k _ s.results hk]

theorem detectLine_fields (st : TestSuiteState) (line : String) :
    detectLine st line
      = { st with
          pci := st.pci || strContains line "PCI"
          usb := st.usb || strContains line "USB"
          tpus := st.tpus + 1
          fileContent := st.fileContent ++ line
          stdout := st.stdout ++ line } := by
  simp only [detectLine, filePrint]
  by_cases hp : st.pci <;> by_cases hu : st.usb <;>
    by_cases hcp : strContains line "PCI" <;> by_cases hcu : strContains line "USB" <;>
    simp [hp, hu, hcp, hcu]

theorem detectLoop (lines : List String) :
    ∀ s : TestSuiteState,
    lines.foldl detectLine s
      = { s with
          pci := s.pci || lines.any (fun l => strContains l "PCI")
          usb := s.usb || lines.any (fun l => strContains l "USB")
          tpus := s.tpus + lines.length
          fileContent := s.fileContent ++ strConcat lines
          stdout := s.stdout ++ strConcat lines } := by
  induction lines with
  | nil => intro s; simp [strConcat, String.append_empty]
  | cons l rest ih =>
    intro s
    rw [List.foldl_cons, detectLine_fields, ih]
    simp only [List.any_cons, List.length_cons, strConcat]
    congr 1
    all_goals first
      | omega
      | simp [strAppend_assoc]
      | simp [Bool.or_assoc]

/-- C7: on `lstpu` output lines, the detector adds one TPU per line, sets
the PCI flag iff some line mentions `PCI` (and never clears a set flag),
likewise for USB, records the `lstpu` result as pass iff the final count
is positive, and on a zero count emits the no-TPUs message to the sink. -/
theorem detect_tpus_spec (lines : List String) (rc : Int) (s : TestSuiteState) :
    ((detect_tpus (ProcResult.launched lines rc) s).tpus = s.tpus + lines.length)
    ∧ ((detect_tpus (ProcResult.launched lines rc) s).pci
        = (s.pci || lines.any (fun l => strContains l "PCI")))
    ∧ ((detect_tpus (ProcResult.launched lines rc) s).usb
        = (s.usb || lines.any (fun l => strContains l "USB")))
    ∧ ((detect_tpus (ProcResult.launched lines rc) s).results
        = dictInsert "lstpu" (decide (0 < s.tpus + lines.length)) s.results)
    ∧ (s.tpus + lines.length = 0 →
        ∃ A, (detect_tpus (ProcResult.launched lines rc) s).fileContent
          = A ++ "No TPUs detected\n") := by
  refine ⟨?_, ?_, ?_, ?_, ?_⟩
  · simp only [detect_tpus]
    rw [detectLoop]
    split <;> rfl
  · simp only [detect_tpus]
    rw [detectLoop]
    split <;> rfl
  · simp only [detect_tpus]
    rw [detectLoop]
    split <;> rfl
  · simp only [detect_tpus]
    rw [detectLoop]
    split
    case isTrue h' =>
      have h : s.tpus + lines.length ≠ 0 := h'
      rw [decide_eq_true (Nat.pos_of_ne_zero h)]
      rfl
    case isFalse h' =>
      have h : s.tpus + lines.length = 0 := not_not.mp h'
      have hd : decide (0 < s.tpus + lines.length) = false := by rw [h]; decide
      rw [hd]
      rfl
  · intro h
    simp only [detect_tpus]
    rw [detectLoop]
    split
    case isTrue h' => exact absurd h h'
    case isFalse h' => exact ⟨_, rfl⟩

theorem selectTests_length_le_one (name : String) (tpus : Nat) :
    (selectTests name tpus).length ≤ 1 := by
  by_cases h1 : name = "tflite_utils_test"
  · simp [selectTests, h1]
  by_cases h2 : name = "inference_stress_test"
  · simp [selectTests, h1, h2]
  by_cases h3 : name = "model_loading_stress_test"
  · simp [selectTests, h1, h2, h3]
  by_cases h4 : name = "inference_repeatability_test"
  · simp [selectTests, h1, h2, h3, h4]
  by_cases h5 : name = "classification_models_test"
  · simp [selectTests, h1, h2, h3, h4, h5]
  by_cases h6 : name = "detection_models_test"
  · simp [selectTests, h1, h2, h3, h4, h5, h6]
  by_cases h7 : name = "segmentation_models_test"
  · simp [selectTests, h1, h2, h3, h4, h5, h6, h7]
  by_cases h8 : name = "multiple_tpus_inference_stress_test"
  · by_cases ht : 1 < tpus <;> simp [selectTests, h1, h2, h3, h4, h5, h6, h7, h8, ht]
  by_cases h9 : name = "models_benchmark"
  · simp [selectTests, h1, h2, h3, h4, h5, h6, h7, h8, h9]
  · simp [selectTests, h1, h2, h3, h4, h5, h6, h7, h8, h9]

/-- C5: the CLI driver dispatches at most one test per invocation, by
exact string match against the nine recognized names, launching exactly
the fixed executable and argument list of the table with the executable
resolved against the current working directory; the multi-TPU stress
test is additionally gated on the TPU-count variable exceeding one (and
with the hardcoded placeholder count of `main` it never runs); an
unrecognized name dispatches nothing. -/
theorem cli_dispatch_table (cwd name : String) (tpus : Nat) :
    ((selectTests name tpus).length ≤ 1)
    ∧ invokedCommands cwd "tflite_utils_test" tpus = [[cwd ++ "/" ++ "tflite_utils_test"]]
    ∧ invokedCommands cwd "inference_stress_test" tpus
        = [[cwd ++ "/" ++ "inference_stress_test", "--stress_test_runs=10000",
            "--stress_with_sleep_test_runs=200"]]
    ∧ invokedCommands cwd "model_loading_stress_test" tpus
        = [[cwd ++ "/" ++ "model_loading_stress_test", "--stress_test_runs=50"]]
    ∧ invokedCommands cwd "inference_repeatability_test" tpus
        = [[cwd ++ "/" ++ "inference_repeatability_test", "--stress_test_runs=1000",
            "--gtest_repeat=20"]]
    ∧ invokedCommands cwd "classification_models_test" tpus
        = [[cwd ++ "/" ++ "classification_models_test", "--gtest_repeat=10",
            "--gtest_filter=-*tfhub_tf2_resnet_50_imagenet_ptq*"]]
    ∧ invokedCommands cwd "detection_models_test" tpus
        = [[cwd ++ "/" ++ "detection_models_test", "--gtest_repeat=100"]]
    ∧ invokedCommands cwd "segmentation_models_test" tpus
        = [[cwd ++ "/" ++ "segmentation_models_test", "--gtest_repeat=100"]]
    ∧ invokedCommands cwd "multiple_tpus_inference_stress_test" tpus
        = (if 1 < tpus then
            [[cwd ++ "/" ++ "multiple_tpus_inference_stress_test", "--num_inferences=5000"]]
          else [])
    ∧ invokedCommands cwd "multiple_tpus_inference_stress_test" mainTpus = []
    ∧ invokedCommands cwd "models_benchmark" tpus
        = [[cwd ++ "/" ++ "models_benchmark", "--benchmark_color=false"]]
    ∧ (name ∉ recognizedNames → selectTests name tpus = []) := by
  refine ⟨selectTests_length_le_one name tpus, ?_, ?_, ?_, ?_, ?_, ?_, ?_, ?_, ?_, ?_, ?_⟩
  · simp [invokedCommands, selectTests, run_test_command]
  · simp [invokedCommands, selectTests, run_test_command]
  · simp [invokedCommands, selectTests, run_test_command]
  · simp [invokedCommands, selectTests, run_test_command]
  · simp [invokedCommands, selectTests, run_test_command]
  · simp [invokedCommands, selectTests, run_test_command]
  · simp [invokedCommands, selectTests, run_test_command]
  · by_cases ht : 1 < tpus <;>
      simp [invokedCommands, selectTests, run_test_command, ht]
  · simp [invokedCommands, selectTests, run_test_command, mainTpus]
  · simp [invokedCommands, selectTests, run_test_command]
  · intro h
    simp only [recognizedNames, List.mem_cons, List.mem_singleton] at h
    push_neg at h
    obtain ⟨h1, h2, h3, h4, h5, h6, h7, h8, h9⟩ := h
    simp [selectTests, h1, h2, h3, h4, h5, h6, h7, h8, h9]

/-- C6: the output file path is always `<cwd>/<test_name>.txt`, derived
from the test-name flag, and the `--output` value never influences it. -/
theorem output_path_from_test_name (cwd : String) (args : Args)
    (h1 : isPrefixList ['/'] (args.test_name ++ ".txt").data = false)
    (h2 : cwd ≠ "") (h3 : cwd.data.getLast? ≠ some '/') :
    main_output_file cwd args = cwd ++ "/" ++ args.test_name ++ ".txt"
    ∧ ∀ o : String,
        main_output_file cwd { args with output := o } = main_output_file cwd args := by
  constructor
  · rw [main_output_file, os_path_join]
    rw [if_neg (by rw [h1]; simp), if_neg h2, if_neg h3]
    simp [strAppend_assoc]
  · intro o
    rfl

/-- Witness for C6 at concrete inputs. -/
theorem output_path_from_test_name_witness :
    main_output_file "/home/user" { test_name := "tflite_utils_test", output := "cts.txt" }
        = "/home/user" ++ "/" ++ "tflite_utils_test" ++ ".txt"
    ∧ ∀ o : String,
        main_output_file "/home/user" { test_name := "tflite_utils_test", output := o }
          = main_output_file "/home/user" { test_name := "tflite_utils_test", output := "cts.txt" } :=
  output_path_from_test_name "/home/user"
    { test_name := "tflite_utils_test", output := "cts.txt" }
    (by decide) (by decide) (by decide)

/-- C8 counterexample: the readings `41500` then an unparsable line form a
read failure (non-numeric content), yet the sampler records
`41.5` degrees rather than nothing. -/
theorem thermal_partial_failure_records :
    TempLine.bad ∈ [TempLine.val (41500 : ℚ), TempLine.bad]
    ∧ (read_temperatures (TempProc.lines [TempLine.val (41500 : ℚ), TempLine.bad])
          "classification_models_test"
          (initState "/w/classification_models_test.txt")).thermals
        = [("classification_models_test", (83 : ℚ) / 2)]
    ∧ ([("classification_models_test", (83 : ℚ) / 2)] : List (String × ℚ)) ≠ [] := by
  refine ⟨by simp, ?_, by simp⟩
  simp only [read_temperatures, collectTemps, pyMax]
  norm_num [dictInsert, initState]

/-- C8 amended: each parsed value is divided by 1000; a read failure
stops the collection at the first bad line and is swallowed (the sampler
is a total function); the maximum of the readings collected before the
failure is recorded iff at least one reading was obtained, and a launch
failure records nothing. -/
theorem thermal_sampler_amended (ls : List TempLine) (name : String) (s : TestSuiteState) :
    (collectTemps ls = (valsUntilBad ls).map (fun q => q / 1000))
    ∧ (collectTemps ls = [] → read_temperatures (TempProc.lines ls) name s = s)
    ∧ (collectTemps ls ≠ [] →
        read_temperatures (TempProc.lines ls) name s
          = { s with thermals := dictInsert name (pyMax (collectTemps ls)) s.thermals }
        ∧ pyMax (collectTemps ls) ∈ collectTemps ls
        ∧ ∀ v ∈ collectTemps ls, v ≤ pyMax (collectTemps ls))
    ∧ read_temperatures TempProc.launchFailure name s = s := by
  refine ⟨?_, ?_, ?_, rfl⟩
  · induction ls with
    | nil => rfl
    | cons t rest ih =>
      cases t with
      | val q => simp [collectTemps, valsUntilBad, ih]
      | bad => rfl
  · intro h
    simp only [read_temperatures]
    simp [h]
  · intro h
    have he : (collectTemps ls).isEmpty = false := by
      cases hc : collectTemps ls with
      | nil => exact absurd hc h
      | cons a l => rfl
    refine ⟨?_, pyMax_mem h, fun v hv => pyMax_le hv⟩
    simp only [read_temperatures]
    rw [he]
    simp

/-- C10: constructing the aggregator opens the output file in write mode,
truncating any pre-existing file at that path: afterwards the file
content at the path is empty, so a non-empty previous run output at the
same path is lost. -/
theorem init_truncates (fs : FileSystem) (path prev : String)
    (h : dictGet path fs = some prev) :
    dictGet path (testSuite_init fs path).2 = some ""
    ∧ (testSuite_init fs path).1.fileContent = ""
    ∧ (prev ≠ "" → dictGet path (testSuite_init fs path).2 ≠ some prev) := by
  refine ⟨dictGet_insert_self path "" fs, rfl, ?_⟩
  intro hne hc
  rw [show (testSuite_init fs path).2 = dictInsert path "" fs from rfl,
      dictGet_insert_self] at hc
  exact hne (Option.some.inj hc).symm

/-- Witness for C10 at concrete inputs. -/
theorem init_truncates_witness :
    dictGet "/w/tflite_utils_test.txt"
        (testSuite_init [("/w/tflite_utils_test.txt", "old output")]
          "/w/tflite_utils_test.txt").2
      = some ""
    ∧ (testSuite_init [("/w/tflite_utils_test.txt", "old output")]
        "/w/tflite_utils_test.txt").1.fileContent = ""
    ∧ ("old output" ≠ "" →
        dictGet "/w/tflite_utils_test.txt"
            (testSuite_init [("/w/tflite_utils_test.txt", "old output")]
              "/w/tflite_utils_test.txt").2
          ≠ some "old output") :=
  init_truncates [("/w/tflite_utils_test.txt", "old output")]
    "/w/tflite_utils_test.txt" "old output" (by decide)

end CoralCTS
